import Mathlib

/-!
Verification of the Advent-of-Code day-2 solver (`src/lib.rs`).

The Rust source is shallowly embedded: lines are lists of characters,
iterators over lines become lists, the `println!` diagnostics are dropped
(they carry no data), `panic!`/failed `assert_eq!`/out-of-range indexing
become a `Fatal` error value, and the `Result<usize, Error>` returned by
`solve` / `ext_solve` becomes the `Outcome` type distinguishing a normal
result, a propagated I/O error, and a fatal abort.  File I/O itself is
abstracted: the content handed to `InfiniteLinesReader::init` is modelled
as `Except IOError (List Line)` — either the list of lines read (newline
already stripped, as `init` does) or an I/O error.
-/

/-- A line of the input file, newline stripped (`String` in the source). -/
abbrev Line := List Char

/-- A token produced by the tokenizer (`&str` in the source). -/
abbrev Token := List Char

/-- Abstract stand-in for `std::io::Error`; only its identity matters. -/
structure IOError where
  code : Nat
deriving DecidableEq, Repr

/-- The ways the Rust program can abort fatally (panics / failed asserts /
out-of-range `Vec` indexing). -/
inductive Fatal where
  /-- out-of-range index into the token vector (`tokens[0]`, `tokens[r+1]`) -/
  | indexOutOfRange
  /-- `assert_eq!("Game", tokens[0])` failed -/
  | assertGameFailed
  /-- `tokens[1].parse::<usize>().expect("failed to parse Game ID")` -/
  | parseIdFailed
  /-- `tokens[r].parse::<usize>().expect("failed to parse colour value")` -/
  | parseValueFailed
  /-- `panic!("failed to match colour name")` -/
  | unknownColour
deriving DecidableEq, Repr

/-- Result of a whole run of `solve` / `ext_solve`: a returned value
(`Ok`), a returned I/O error (`Err`), or a fatal abort (panic), which in
Rust returns nothing to the caller. -/
inductive Outcome where
  | ok (value : Nat)
  | ioError (e : IOError)
  | panic (f : Fatal)
deriving DecidableEq, Repr

/-! ## Tokenization

`cv.split(&[' ', ',', ':', ';'][..]).map(|t| t.trim()).filter(|t| t.len() > 0)`
-/

/-- The delimiter set of the `split` call. -/
def isDelim (c : Char) : Bool :=
  c = ' ' || c = ',' || c = ':' || c = ';'

/-- `str::split` on the delimiter set: splits at every delimiter
occurrence, keeping empty pieces (Rust yields `""` between two adjacent
delimiters and at the ends). -/
def splitDelims : List Char → List (List Char)
  | [] => [[]]
  | c :: rest =>
    if isDelim c then
      [] :: splitDelims rest
    else
      match splitDelims rest with
      | [] => [[c]]
      | p :: ps => (c :: p) :: ps

/-- `str::trim`: remove whitespace from both ends. -/
def trim (s : List Char) : List Char :=
  ((s.dropWhile Char.isWhitespace).reverse.dropWhile Char.isWhitespace).reverse

/-- The token list of one line, as built in `solve` / `ext_solve`:
split on the delimiters, trim every piece, drop empty pieces. -/
def tokenize (l : Line) : List Token :=
  ((splitDelims l).map trim).filter (fun t => t.length > 0)

/-! ## `usize` parsing

`str::parse::<usize>` accepts an optional leading `+` followed by one or
more ASCII digits, and fails on overflow past `usize::MAX` (64-bit here).
-/

/-- Value of an ASCII digit, `none` for any other character. -/
def digit? (c : Char) : Option Nat :=
  if '0' ≤ c ∧ c ≤ '9' then some (c.toNat - '0'.toNat) else none

/-- Accumulate a digit string left to right; fails at the first
non-digit. -/
def parseDigits? : List Char → Nat → Option Nat
  | [], acc => some acc
  | c :: cs, acc =>
    match digit? c with
    | some d => parseDigits? cs (acc * 10 + d)
    | none => none

/-- `str::parse::<usize>` on a token: optional `+` sign, at least one
digit, all digits, value within `usize` range. -/
def parseNat? (t : Token) : Option Nat :=
  let digits := match t with
    | '+' :: rest => if rest.isEmpty then none else parseDigits? rest 0
    | [] => none
    | _ => parseDigits? t 0
  match digits with
  | some v => if v < 2 ^ 64 then some v else none
  | none => none

/-! ## The validity pass (`solve`) -/

/-- The literal `"Game"` the first token is asserted against. -/
def gameTok : Token := "Game".toList

/-- The literal `"red"`. -/
def redTok : Token := "red".toList

/-- The literal `"green"`. -/
def greenTok : Token := "green".toList

/-- The literal `"blue"`. -/
def blueTok : Token := "blue".toList

/-- The `while r < tokens.len()` loop of `solve`, walking the tokens from
index 2 as (value, colour) pairs.  Mirrors the source's order of events:
the value at `tokens[r]` is parsed before `tokens[r + 1]` is indexed, a
count above the colour's ceiling sets `valid = false` and `break`s, an
unknown colour panics.  Returns the final `valid` flag. -/
def checkPairs : List Token → Except Fatal Bool
  | [] => .ok true
  | [v] =>
    match parseNat? v with
    | none => .error .parseValueFailed
    | some _ => .error .indexOutOfRange
  | v :: c :: rest =>
    match parseNat? v with
    | none => .error .parseValueFailed
    | some value =>
      if c = redTok then
        if value > 12 then .ok false else checkPairs rest
      else if c = greenTok then
        if value > 13 then .ok false else checkPairs rest
      else if c = blueTok then
        if value > 14 then .ok false else checkPairs rest
      else .error .unknownColour

/-- The body of `solve` on one line's token list: assert
`tokens[0] == "Game"` (indexing `tokens[0]` panics first when there is no
token), parse the id at `tokens[1]` (indexing panics when absent), then
run the pair loop.  Returns the id together with the validity flag. -/
def solveTokens (tokens : List Token) : Except Fatal (Nat × Bool) :=
  match tokens with
  | [] => .error .indexOutOfRange
  | t0 :: rest =>
    if t0 = gameTok then
      match rest with
      | [] => .error .indexOutOfRange
      | t1 :: rest2 =>
        match parseNat? t1 with
        | none => .error .parseIdFailed
        | some id =>
          match checkPairs rest2 with
          | .error f => .error f
          | .ok valid => .ok (id, valid)
    else .error .assertGameFailed

/-- The per-line body of `solve`: tokenize, then process the tokens. -/
def solveLine (l : Line) : Except Fatal (Nat × Bool) :=
  solveTokens (tokenize l)

/-! ## `PagedIterator`

`PagedIterator::init(iter, page_length)` starts with
`page_number = 1, line_number = 0`; each `next()` increments
`line_number`, and when it exceeds `page_length` bumps `page_number` and
resets `line_number` to 1.  A lazy iterator drained into a list is the
list of its elements, so the decoration of a (finite) iterator is a
function on the underlying list, with the `(page_number, line_number)`
counters passed as explicit state. -/

/-- One `next()` step of the counters of `PagedIterator`. -/
def pagedStep (pageLength : Nat) (st : Nat × Nat) : Nat × Nat :=
  let n := st.2 + 1
  if n > pageLength then (st.1 + 1, 1) else (st.1, n)

/-- All elements produced by a `PagedIterator` with the given counter
state over the remaining elements of the wrapped iterator. -/
def pagedFrom (pageLength : Nat) (st : Nat × Nat) : List α → List (Nat × Nat × α)
  | [] => []
  | x :: xs =>
    let st' := pagedStep pageLength st
    (st'.1, st'.2, x) :: pagedFrom pageLength st' xs

/-- `PagedIterator::init(iter, page_length)` drained: initial state is
`(page_number, line_number) = (1, 0)`. -/
def pagedInit (pageLength : Nat) (xs : List α) : List (Nat × Nat × α) :=
  pagedFrom pageLength (1, 0) xs

/-! ## `InfiniteLinesReader` -/

/-- `InfiniteLinesReader::cycle`, i.e. `self.lines.iter().cycle()`:
the element the iterator yields at 0-indexed position `i`, `none` when
it has terminated by then.  Rust's `Iterator::cycle` restarts the
underlying iterator after exhaustion, so over a non-empty `lines` it
yields `lines[i % lines.len()]` forever, and over an empty `lines` it
yields nothing ([] has `i % 0 = i`, and `[][i]? = none`). -/
def cycleNth (lines : List α) (i : Nat) : Option α :=
  lines[i % lines.length]?

/-! ## `solve` -/

/-- The `while let Some((p, n, cv)) = lines.next()` loop of `solve` with
accumulator `rx`; the page/line decoration is only printed. -/
def solveLoop : List (Nat × Nat × Line) → Nat → Except Fatal Nat
  | [], rx => .ok rx
  | (_, _, cv) :: rest, rx =>
    match solveLine cv with
    | .error f => .error f
    | .ok (id, valid) => solveLoop rest (if valid then rx + id else rx)

/-- `solve(fname)`: propagate the reader's I/O error, otherwise iterate
the lines through `PagedIterator::init(reader.iter(), reader.length())`
and accumulate ids of valid games; a fatal line aborts the run. -/
def solve (input : Except IOError (List Line)) : Outcome :=
  match input with
  | .error e => .ioError e
  | .ok lines =>
    match solveLoop (pagedInit lines.length lines) 0 with
    | .error f => .panic f
    | .ok rx => .ok rx

/-! ## `reduce` and `OptionExt` -/

/-- `pub fn reduce<T, F>(a: Option<T>, b: Option<T>, f: F) -> Option<T>`. -/
def reduce (a b : Option T) (f : T → T → T) : Option T :=
  match a, b with
  | some l, some r => some (f l r)
  | some l, none => some l
  | none, some r => some r
  | none, none => none

/-- The `OptionExt::reduce` method, which just delegates to `reduce`. -/
def Option.extReduce (a : Option T) (b : Option T) (f : T → T → T) : Option T :=
  reduce a b f

/-! ## `ext_solve` -/

/-- The `mvalues: [Option<usize>; 3]` array of `ext_solve`, indexed by
the colour index `red ↦ 0, green ↦ 1, blue ↦ 2`. -/
structure MValues where
  red : Option Nat
  green : Option Nat
  blue : Option Nat
deriving DecidableEq, Repr

/-- `mvalues[index] = mvalues[index].reduce(Some(value), usize::max)`. -/
def MValues.update (mv : MValues) (index : Nat) (value : Nat) : MValues :=
  match index with
  | 0 => { mv with red := mv.red.extReduce (some value) Nat.max }
  | 1 => { mv with green := mv.green.extReduce (some value) Nat.max }
  | _ => { mv with blue := mv.blue.extReduce (some value) Nat.max }

/-- `let mut game_power: usize = 1; for c in mvalues { game_power *= c.unwrap_or(0) }`. -/
def MValues.power (mv : MValues) : Nat :=
  1 * mv.red.getD 0 * mv.green.getD 0 * mv.blue.getD 0

/-- The `while r < tokens.len()` loop of `ext_solve`: parse the value at
`tokens[r]` (panics on failure), index the colour at `tokens[r + 1]`
(panics when absent), panic on an unknown colour, else fold the value
into the per-colour maximum; no short-circuit. -/
def extPairs : List Token → MValues → Except Fatal MValues
  | [], mv => .ok mv
  | [v], _ =>
    match parseNat? v with
    | none => .error .parseValueFailed
    | some _ => .error .indexOutOfRange
  | v :: c :: rest, mv =>
    match parseNat? v with
    | none => .error .parseValueFailed
    | some value =>
      if c = redTok then extPairs rest (mv.update 0 value)
      else if c = greenTok then extPairs rest (mv.update 1 value)
      else if c = blueTok then extPairs rest (mv.update 2 value)
      else .error .unknownColour

/-- The body of `ext_solve` on one line's token list: assert
`tokens[0] == "Game"` (indexing `tokens[0]` panics first when there is no
token), then walk the pairs from index 2 — the id token at index 1 is
never read — and return the line's `game_power`. -/
def extTokens (tokens : List Token) : Except Fatal Nat :=
  match tokens with
  | [] => .error .indexOutOfRange
  | t0 :: rest =>
    if t0 = gameTok then
      match rest with
      | [] => .ok (MValues.power ⟨none, none, none⟩)
      | _ :: rest2 =>
        match extPairs rest2 ⟨none, none, none⟩ with
        | .error f => .error f
        | .ok mv => .ok mv.power
    else .error .assertGameFailed

/-- The per-line body of `ext_solve`: tokenize, then process the tokens. -/
def extLine (l : Line) : Except Fatal Nat :=
  extTokens (tokenize l)

/-- The line loop of `ext_solve` with accumulator `rx`. -/
def extLoop : List (Nat × Nat × Line) → Nat → Except Fatal Nat
  | [], rx => .ok rx
  | (_, _, cv) :: rest, rx =>
    match extLine cv with
    | .error f => .error f
    | .ok power => extLoop rest (rx + power)

/-- `ext_solve(fname)`: propagate the reader's I/O error, otherwise sum
the per-line powers; a fatal line aborts the run. -/
def ext_solve (input : Except IOError (List Line)) : Outcome :=
  match input with
  | .error e => .ioError e
  | .ok lines =>
    match extLoop (pagedInit lines.length lines) 0 with
    | .error f => .panic f
    | .ok rx => .ok rx

/-! ## Spec-level view: well-formed records

The spec describes a well-formed line as `Game <id>:` followed by
(count, colour) pairs.  These definitions follow the spec's words and
serve as the abstract side of the refinement claims. -/

/-- The fixed colour set of the spec. -/
inductive Colour where
  | red
  | green
  | blue
deriving DecidableEq, Repr

/-- The colour a token names, if any. -/
def colourOf? (t : Token) : Option Colour :=
  if t = redTok then some .red
  else if t = greenTok then some .green
  else if t = blueTok then some .blue
  else none

/-- The pairs of a well-formed record: tokens from index 2 alternate
count / colour. -/
def parsePairs? : List Token → Option (List (Nat × Colour))
  | [] => some []
  | [_] => none
  | v :: c :: rest =>
    match parseNat? v, colourOf? c, parsePairs? rest with
    | some n, some col, some ps => some ((n, col) :: ps)
    | _, _, _ => none

/-- The fixed per-colour ceilings `{red: 12, green: 13, blue: 14}`. -/
def limit : Colour → Nat
  | .red => 12
  | .green => 13
  | .blue => 14

theorem colourOf?_inv {c : Token} {col : Colour} (h : colourOf? c = some col) :
    (col = .red ∧ c = redTok) ∨ (col = .green ∧ c = greenTok) ∨ (col = .blue ∧ c = blueTok) := by
  unfold colourOf? at h
  split_ifs at h with h1 h2 h3 <;> simp_all

/-- The short-circuiting pair loop of `solve` computes, on a well-formed
pair token list, exactly the all-pairs-within-limits judgement. -/
theorem checkPairs_spec : ∀ (toks : List Token) (ps : List (Nat × Colour)),
    parsePairs? toks = some ps →
    checkPairs toks = .ok (ps.all fun p => p.1 ≤ limit p.2) := by
  intro toks
  induction toks using parsePairs?.induct with
  | case1 =>
    intro ps h
    simp only [parsePairs?, Option.some.injEq] at h
    subst h
    rfl
  | case2 v =>
    intro ps h
    simp [parsePairs?] at h
  | case3 v c rest n col ps0 hr hc hv ih =>
    intro ps h
    rw [parsePairs?, hv, hc, hr] at h
    cases h
    have ihr := ih ps0 hr
    rcases colourOf?_inv hc with ⟨hcol, hctok⟩ | ⟨hcol, hctok⟩ | ⟨hcol, hctok⟩ <;>
      subst hcol <;> subst hctok
    · by_cases hn : n > 12 <;> simp_all [checkPairs, limit, redTok, greenTok, blueTok]
    · by_cases hn : n > 13 <;> simp_all [checkPairs, limit, redTok, greenTok, blueTok]
    · by_cases hn : n > 14 <;> simp_all [checkPairs, limit, redTok, greenTok, blueTok]
  | case4 v c rest himp ih =>
    intro ps h
    rw [parsePairs?] at h
    split at h
    · rename_i n col ps' hv hc hr
      exact (himp n col ps' hv hc hr).elim
    · exact absurd h (by simp)

/-- A structurally bad line makes the whole `solve` loop abort. -/
theorem solveLoop_fatal (pl : Nat) :
    ∀ (ls : List Line) (st : Nat × Nat) (rx : Nat),
      (∃ l ∈ ls, ∃ f, solveLine l = .error f) →
      ∃ f', solveLoop (pagedFrom pl st ls) rx = .error f' := by
  intro ls
  induction ls with
  | nil =>
    intro st rx h
    obtain ⟨l, hl, _⟩ := h
    exact absurd hl (by simp)
  | cons l0 ls ih =>
    intro st rx h
    rw [pagedFrom, solveLoop]
    cases hres : solveLine l0 with
    | error f => exact ⟨f, rfl⟩
    | ok p =>
      obtain ⟨l, hl, f, hf⟩ := h
      rcases List.mem_cons.mp hl with hel | hel
      · subst hel
        rw [hres] at hf
        exact absurd hf (by simp)
      · exact ih _ _ ⟨l, hel, f, hf⟩

/-- A structurally bad line makes the whole `solve` run panic. -/
theorem solve_fatal {lines : List Line} {l : Line}
    (hl : l ∈ lines) (hf : ∃ f, solveLine l = .error f) :
    ∃ f', solve (.ok lines) = .panic f' := by
  obtain ⟨f', hloop⟩ :=
    solveLoop_fatal lines.length lines (1, 0) 0 ⟨l, hl, hf⟩
  exact ⟨f', by rw [solve, pagedInit, hloop]⟩

/-- A structurally bad line makes the whole `ext_solve` loop abort. -/
theorem extLoop_fatal (pl : Nat) :
    ∀ (ls : List Line) (st : Nat × Nat) (rx : Nat),
      (∃ l ∈ ls, ∃ f, extLine l = .error f) →
      ∃ f', extLoop (pagedFrom pl st ls) rx = .error f' := by
  intro ls
  induction ls with
  | nil =>
    intro st rx h
    obtain ⟨l, hl, _⟩ := h
    exact absurd hl (by simp)
  | cons l0 ls ih =>
    intro st rx h
    rw [pagedFrom, extLoop]
    cases hres : extLine l0 with
    | error f => exact ⟨f, rfl⟩
    | ok p =>
      obtain ⟨l, hl, f, hf⟩ := h
      rcases List.mem_cons.mp hl with hel | hel
      · subst hel
        rw [hres] at hf
        exact absurd hf (by simp)
      · exact ih _ _ ⟨l, hel, f, hf⟩

/-- A structurally bad line makes the whole `ext_solve` run panic. -/
theorem ext_solve_fatal {lines : List Line} {l : Line}
    (hl : l ∈ lines) (hf : ∃ f, extLine l = .error f) :
    ∃ f', ext_solve (.ok lines) = .panic f' := by
  obtain ⟨f', hloop⟩ :=
    extLoop_fatal lines.length lines (1, 0) 0 ⟨l, hl, hf⟩
  exact ⟨f', by rw [ext_solve, pagedInit, hloop]⟩

/-! ## `PagedIterator` lemmas -/

/-- C3: on the two-line sample file, `solve` returns 3 and `ext_solve`
returns 60, the two lines contributing powers 48 and 12. -/
theorem C3_sample :
    solve (.ok ["Game 1: 3 blue, 4 red; 1 red, 2 green, 6 blue; 2 green".toList,
                "Game 2: 1 blue, 2 green; 3 green, 4 blue, 1 red; 1 green, 1 blue".toList]) =
      .ok 3 ∧
    ext_solve (.ok ["Game 1: 3 blue, 4 red; 1 red, 2 green, 6 blue; 2 green".toList,
                    "Game 2: 1 blue, 2 green; 3 green, 4 blue, 1 red; 1 green, 1 blue".toList]) =
      .ok 60 ∧
    extLine "Game 1: 3 blue, 4 red; 1 red, 2 green, 6 blue; 2 green".toList = .ok 48 ∧
    extLine "Game 2: 1 blue, 2 green; 3 green, 4 blue, 1 red; 1 green, 1 blue".toList = .ok 12 :=
  ⟨by decide, by decide, rfl, rfl⟩

/-- C4 counterexample: the line `Game X: 3 blue` has a non-numeric id
token, yet `ext_solve` does not abort — it returns the value `Ok 0` to
the caller, because `ext_solve` never reads the id token at index 1.
This refutes the claim that a non-numeric id aborts both solvers
fatally with no value returned. -/
theorem C4_counterexample :
    ext_solve (.ok ["Game X: 3 blue".toList]) = .ok 0 := by decide

/-- C4 (amended): `solve` and `ext_solve` return an error value exactly
when file loading fails with an I/O error, and then return no partial
result; any line whose processing hits a structural violation (no
tokens, first token not `Game`, non-numeric count, unrecognized colour,
unpaired trailing token — and, for `solve` only, a non-numeric id) makes
the whole run abort as a panic, returning neither `Ok` nor `Err`;
`ext_solve` never reads the id token at index 1, so a non-numeric id
aborts `solve` but not `ext_solve`. -/
theorem C4_amended :
    (∀ e, solve (.error e) = .ioError e) ∧
    (∀ e, ext_solve (.error e) = .ioError e) ∧
    (∀ (lines : List Line) e, solve (.ok lines) ≠ .ioError e) ∧
    (∀ (lines : List Line) e, ext_solve (.ok lines) ≠ .ioError e) ∧
    (∀ (lines : List Line) l, l ∈ lines → (∃ f, solveLine l = .error f) →
      ∃ f, solve (.ok lines) = .panic f) ∧
    (∀ (lines : List Line) l, l ∈ lines → (∃ f, extLine l = .error f) →
      ∃ f, ext_solve (.ok lines) = .panic f) ∧
    (∀ (t1 : Token) (rest : List Token), parseNat? t1 = none →
      solveTokens (gameTok :: t1 :: rest) = .error .parseIdFailed) ∧
    (∀ (t1 t1' : Token) (rest : List Token),
      extTokens (gameTok :: t1 :: rest) = extTokens (gameTok :: t1' :: rest)) := by
  refine ⟨fun e => rfl, fun e => rfl, ?_, ?_, ?_, ?_, ?_, ?_⟩
  · intro lines e
    cases h : solveLoop (pagedInit lines.length lines) 0 <;> simp [solve, h]
  · intro lines e
    cases h : extLoop (pagedInit lines.length lines) 0 <;> simp [ext_solve, h]
  · intro lines l hl hf
    exact solve_fatal hl hf
  · intro lines l hl hf
    exact ext_solve_fatal hl hf
  · intro t1 rest h
    rw [solveTokens]
    simp [h]
  · intro t1 t1' rest
    rfl

/-- Witness for C4 (amended): a concrete I/O error propagates, and a
concrete bad line (first token not `Game`) makes the run panic. -/
theorem C4_witness :
    solve (.error ⟨7⟩) = .ioError ⟨7⟩ ∧
    (∃ f, ext_solve (.ok ["oops 3 blue".toList]) = .panic f) :=
  ⟨C4_amended.1 ⟨7⟩,
   C4_amended.2.2.2.2.2.1 ["oops 3 blue".toList] "oops 3 blue".toList
     (by decide) ⟨.assertGameFailed, rfl⟩⟩

/-- C6 counterexample: over an empty `LineSource` (the reader of an
empty file stores no lines), `cycle()` yields nothing already at
position 0 — it terminates immediately, refuting the claim's "for every
LineSource ... never terminates". -/
theorem C6_counterexample : cycleNth ([] : List Line) 0 = none := rfl

/-- C6 (amended): for every non-empty `LineSource`, `cycle()` never
terminates, and its element at 0-indexed position i is the stored line
at index i mod length; an empty `LineSource`'s cycle yields nothing. -/
theorem C6_cycle (α : Type) (lines : List α) (hne : lines ≠ []) (i : Nat) :
    ∃ hlt : i % lines.length < lines.length,
      cycleNth lines i = some (lines.get ⟨i % lines.length, hlt⟩) := by
  have hlt : i % lines.length < lines.length :=
    Nat.mod_lt _ (List.length_pos.mpr hne)
  refine ⟨hlt, ?_⟩
  rw [cycleNth, List.getElem?_eq_getElem hlt]
  rfl

/-- Witness for C6: over the two lines `a`, `b`, position 5 yields the
stored line at index 5 mod 2 = 1, i.e. `b`. -/
theorem C6_witness :
    ∃ hlt : 5 % ([['a'], ['b']] : List Line).length < ([['a'], ['b']] : List Line).length,
      cycleNth ([['a'], ['b']] : List Line) 5 =
        some (([['a'], ['b']] : List Line).get ⟨5 % ([['a'], ['b']] : List Line).length, hlt⟩) :=
  C6_cycle Line [['a'], ['b']] (by decide) 5

/-- C7: the short-circuiting validity walk of `solve` stops at the first
over-ceiling pair, yet judges a record invalid exactly when the
non-short-circuiting check of all its pairs would: on every well-formed
pair token list it returns precisely the all-pairs-within-ceilings
value. -/
theorem C7_shortCircuit_equiv (toks : List Token) (ps : List (Nat × Colour))
    (h : parsePairs? toks = some ps) :
    checkPairs toks = .ok (ps.all fun p => p.1 ≤ limit p.2) :=
  checkPairs_spec toks ps h

/-- Witness for C7: `13 red, 1 blue` is judged invalid (red ceiling is
12), matching the all-pairs check. -/
theorem C7_witness :
    checkPairs ["13".toList, "red".toList, "1".toList, "blue".toList] =
      .ok (([(13, Colour.red), (1, Colour.blue)]).all fun p => p.1 ≤ limit p.2) :=
  C7_shortCircuit_equiv ["13".toList, "red".toList, "1".toList, "blue".toList]
    [(13, Colour.red), (1, Colour.blue)] (by decide)

/-- C8: tokenization of a line is exactly splitting on the delimiter set
{space, comma, colon, semicolon}, trimming each piece, and discarding
empty pieces, in left-to-right order; every produced token is
non-empty. -/
theorem C8_tokenize (l : Line) :
    tokenize l = ((splitDelims l).map trim).filter (fun t => t.length > 0) ∧
    ∀ t ∈ tokenize l, 0 < t.length := by
  refine ⟨rfl, ?_⟩
  intro t ht
  rw [tokenize] at ht
  simpa using (List.mem_filter.mp ht).2

/-- Witness for C8 on a concrete line with doubled delimiters and
surrounding whitespace. -/
theorem C8_witness :
    tokenize (" a,, b:".toList) =
      ((splitDelims (" a,, b:".toList)).map trim).filter (fun t => t.length > 0) ∧
    0 < ("a".toList).length :=
  ⟨(C8_tokenize (" a,, b:".toList)).1,
   (C8_tokenize (" a,, b:".toList)).2 "a".toList (by decide)⟩

/-- C9: a line yielding no tokens (empty, or only delimiters and
whitespace) makes both solvers hit the out-of-range access `tokens[0]`
— the error is `indexOutOfRange`, not `assertGameFailed`, so the `Game`
assertion is never evaluated — and any file containing such a line makes
both runs panic instead of returning `Ok` or `Err`. -/
theorem C9_emptyTokenLine (l : Line) (h : tokenize l = []) :
    solveLine l = .error .indexOutOfRange ∧
    extLine l = .error .indexOutOfRange ∧
    ∀ pre post : List Line,
      (∃ f, solve (.ok (pre ++ l :: post)) = .panic f) ∧
      (∃ f, ext_solve (.ok (pre ++ l :: post)) = .panic f) := by
  have hs : solveLine l = .error .indexOutOfRange := by
    rw [solveLine, h]
    rfl
  have he : extLine l = .error .indexOutOfRange := by
    rw [extLine, h]
    rfl
  refine ⟨hs, he, ?_⟩
  intro pre post
  have hmem : l ∈ pre ++ l :: post := by simp
  exact ⟨solve_fatal hmem ⟨_, hs⟩, ext_solve_fatal hmem ⟨_, he⟩⟩

/-- Witness for C9: the empty line and a line of only delimiters. -/
theorem C9_witness :
    solveLine ([] : Line) = .error .indexOutOfRange ∧
    extLine (" ,;: ".toList) = .error .indexOutOfRange ∧
    (∃ f, solve (.ok ([] ++ ([] : Line) :: [])) = .panic f) :=
  ⟨(C9_emptyTokenLine [] (by decide)).1,
   (C9_emptyTokenLine (" ,;: ".toList) (by decide)).2.1,
   ((C9_emptyTokenLine [] (by decide)).2.2 [] []).1⟩

/-- C10: the option-merging helper `reduce` satisfies its four defining
equations — so `None` is a two-sided identity — and the `OptionExt`
method `a.reduce(b, f)` agrees with the free function `reduce(a, b, f)`,
for every element type and combining function. -/
theorem C10_reduce (T : Type) (f : T → T → T) (a b : T) (o o' : Option T) :
    reduce (some a) (some b) f = some (f a b) ∧
    reduce (some a) none f = some a ∧
    reduce none (some b) f = some b ∧
    reduce (none : Option T) none f = none ∧
    reduce o none f = o ∧
    reduce none o' f = o' ∧
    Option.extReduce o o' f = reduce o o' f := by
  refine ⟨rfl, rfl, rfl, rfl, ?_, ?_, rfl⟩
  · cases o <;> rfl
  · cases o' <;> rfl
